import Mathlib

/-!
Verification of the Omex mindmap-viewer frontend fragment.

The development shallowly embeds the two source files:
* `src/frontend/project/src/lib/api.js` — the upload client `uploadPDF`;
* the `MindmapViewer` React component — staggered mermaid render calls,
  per-diagram zoom state, SVG export, empty-input placeholder.

JavaScript numbers that only ever hold multiples of 1/10 in [1/2, 2] are
modelled exactly over `ℚ`; fetch responses, promises and DOM effects are
modelled as explicit data (`Except`, effect traces, state records).
-/

namespace Omex

/-! ## Upload client (`api.js`, `uploadPDF`) -/

/-- Model of a parsed JSON body.  `errorField` is the value of the `error`
property when it is present as a string (`some ""` models an empty string,
which is falsy in JavaScript); `payload` stands for the rest of the body,
passed through unchanged on success. -/
structure JsonBody where
  errorField : Option String
  payload : String
deriving DecidableEq, Repr

/-- Model of a `fetch` response as seen by `uploadPDF`: the `ok` flag
(2xx or not) and the outcome of `response.json()` — `.ok` with the parsed
body, or `.error m` when parsing throws a `SyntaxError` with message `m`. -/
structure HttpResponse where
  ok : Bool
  body : Except String JsonBody
deriving Repr

/-- The generic fallback message of `uploadPDF`. -/
def uploadFallbackMsg : String := "Failed to upload file"

/-- Shallow embedding of `uploadPDF` (api.js lines 5–25).  On a non-ok
response it awaits `response.json()`; a parse failure there throws, is
caught by the surrounding `catch`, logged, and re-thrown unchanged.  When
the body parses, it throws `new Error(errorData.error || 'Failed to upload
file')`; `||` falls through on the falsy values `undefined` (field absent)
and `""`.  On an ok response it returns the parsed body, re-throwing a
parse failure the same way. -/
def uploadPDF (resp : HttpResponse) : Except String JsonBody :=
  if resp.ok then
    resp.body
  else
    match resp.body with
    | .ok errorData =>
        .error (match errorData.errorField with
                | some s => if s = "" then uploadFallbackMsg else s
                | none => uploadFallbackMsg)
    | .error m => .error m

/-! ## Zoom state (`MindmapViewer`, lines 24, 63, 159–189) -/

/-- The component's `zoomStates` map, keyed by the diagram index `i`
(the source key is the string `mindmap-${i}`): `none` models the absence
of an entry, `some s` an entry `{ scale: s, mindmapId: ... }`. -/
def ZoomMap : Type := Nat → Option ℚ

/-- The map with no entries — `React.useState({})`'s initial value. -/
def emptyZoom : ZoomMap := fun _ => none

/-- `zoomStates[`mindmap-${i}`]?.scale || 1` — the effective scale of
diagram `i`: `1` when the entry is absent, and (because `||` falls through
on falsy values) also when the stored scale is `0`. -/
def effectiveScale (z : ZoomMap) (i : Nat) : ℚ :=
  match z i with
  | some s => if s = 0 then 1 else s
  | none => 1

/-- JavaScript `Math.round`: half-up, towards positive infinity. -/
def jsRound (q : ℚ) : ℤ := ⌊q + 1/2⌋

/-- The zoom percentage label (line 173):
`Math.round((zoomStates[...]?.scale || 1) * 100)`. -/
def displayedPct (z : ZoomMap) (i : Nat) : ℤ :=
  jsRound (effectiveScale z i * 100)

/-- The zoom-out click handler (lines 159–165): store
`Math.max(0.5, currentScale - 0.1)` under key `i`, all other keys spread
from the previous map. -/
def applyZoomOut (z : ZoomMap) (i : Nat) : ZoomMap :=
  fun j => if j = i then some (max (1/2) (effectiveScale z i - 1/10)) else z j

/-- The zoom-in click handler (lines 175–182): store
`Math.min(2, currentScale + 0.1)` under key `i`. -/
def applyZoomIn (z : ZoomMap) (i : Nat) : ZoomMap :=
  fun j => if j = i then some (min 2 (effectiveScale z i + 1/10)) else z j

/-- One click on a zoom control of diagram `i`. -/
inductive ZoomClick where
  | inc (i : Nat)
  | dec (i : Nat)
deriving DecidableEq, Repr

/-- Apply one click to the zoom map. -/
def applyClick (z : ZoomMap) : ZoomClick → ZoomMap
  | .inc i => applyZoomIn z i
  | .dec i => applyZoomOut z i

/-- Run a sequence of clicks from the initial (empty) zoom map. -/
def runClicks (cs : List ZoomClick) : ZoomMap :=
  cs.foldl applyClick emptyZoom

/-- Invariant: every stored scale lies in `[1/2, 2]`. -/
def ZoomInv (z : ZoomMap) : Prop :=
  ∀ i s, z i = some s → 1/2 ≤ s ∧ s ≤ 2

theorem zoomInv_empty : ZoomInv emptyZoom := by
  intro i s h
  simp [emptyZoom] at h

theorem effectiveScale_bounds {z : ZoomMap} (hz : ZoomInv z) (i : Nat) :
    1/2 ≤ effectiveScale z i ∧ effectiveScale z i ≤ 2 := by
  unfold effectiveScale
  cases h : z i with
  | none => norm_num
  | some s =>
    rcases hz i s h with ⟨h1, h2⟩
    have hs : s ≠ 0 := by
      intro h0
      rw [h0] at h1
      norm_num at h1
    simp [hs]
    constructor
    · linarith
    · exact h2

theorem zoomInv_applyClick {z : ZoomMap} (hz : ZoomInv z) (c : ZoomClick) :
    ZoomInv (applyClick z c) := by
  cases c with
  | inc i =>
    have hb := effectiveScale_bounds hz i
    intro j s h
    simp only [applyClick, applyZoomIn] at h
    by_cases hj : j = i
    · simp [hj] at h
      subst h
      constructor
      · exact le_min (by norm_num) (by linarith [hb.1])
      · exact min_le_left _ _
    · simp [hj] at h
      exact hz j s h
  | dec i =>
    have hb := effectiveScale_bounds hz i
    intro j s h
    simp only [applyClick, applyZoomOut] at h
    by_cases hj : j = i
    · simp [hj] at h
      subst h
      constructor
      · exact le_trans (by norm_num) (le_max_left _ _)
      · exact max_le (by norm_num) (by linarith [hb.2])
    · simp [hj] at h
      exact hz j s h

theorem zoomInv_foldl (cs : List ZoomClick) :
    ∀ z : ZoomMap, ZoomInv z → ZoomInv (cs.foldl applyClick z) := by
  induction cs with
  | nil => intro z hz; exact hz
  | cons c cs ih =>
    intro z hz
    exact ih (applyClick z c) (zoomInv_applyClick hz c)

theorem zoomInv_runClicks (cs : List ZoomClick) : ZoomInv (runClicks cs) :=
  zoomInv_foldl cs emptyZoom zoomInv_empty

/-! ## The render effect and its staggered calls (lines 26–99) -/

/-- A mindmap entry: `{ title, code }`. -/
structure Mindmap where
  title : String
  code : String
deriving DecidableEq, Repr

/-- The element id passed to `mermaid.render`: `` `mindmap-${index}` ``. -/
def mindmapId (i : Nat) : String := "mindmap-" ++ toString i

/-- One scheduled `mermaid.render` call: the id it is given, the diagram
source text, and the `setTimeout` delay in milliseconds. -/
structure RenderCall where
  elemId : String
  src : String
  delay : Nat
deriving DecidableEq, Repr

/-- The `mindmapElements.forEach((element, index) => setTimeout(..., index
* 300))` loop, with `index` starting at `k`: one call per element, id
`mindmap-${index}`, source `mindmaps[index].code`, delay `index * 300`. -/
def scheduleRendersFrom : Nat → List Mindmap → List RenderCall
  | _, [] => []
  | k, m :: rest => ⟨mindmapId k, m.code, k * 300⟩ :: scheduleRendersFrom (k + 1) rest

/-- The calls scheduled by one run of the effect body over the full entry
list (the `.mindmap-diagram` node list has one element per entry). -/
def scheduleRenders (ms : List Mindmap) : List RenderCall :=
  scheduleRendersFrom 0 ms

/-- The effect body (lines 46–98) as a function of the `mindmaps` prop.
`none` models an absent (undefined) prop: there `mindmaps.length` throws a
`TypeError` before any render call is issued.  For a present list, the
guard `mindmaps.length > 0 && containerRef.current` schedules the calls
(the container ref is attached exactly when the list is non-empty, because
the component body returned the placeholder early otherwise). -/
def viewerEffectCalls : Option (List Mindmap) → Except String (List RenderCall)
  | none => .error "TypeError: Cannot read properties of undefined (reading length)"
  | some ms => .ok (if 0 < ms.length then scheduleRenders ms else [])

/-- The `mermaid.render` calls actually issued by an effect run: none when
the body threw before reaching the loop. -/
def issuedRenderCalls : Except String (List RenderCall) → List RenderCall
  | .error _ => []
  | .ok calls => calls

/-- What the component body returns (lines 107–219): the neutral
placeholder for an absent or empty list, otherwise the list of diagram
blocks. -/
inductive ViewOutput where
  | emptyPlaceholder (msg : String)
  | diagramBlocks (entries : List Mindmap)
deriving DecidableEq, Repr

/-- The early-return test `if (!mindmaps || mindmaps.length === 0)`
(line 107) and the main JSX tree. -/
def renderView : Option (List Mindmap) → ViewOutput
  | none => .emptyPlaceholder "No mindmaps available"
  | some ms =>
    if ms.length = 0 then .emptyPlaceholder "No mindmaps available"
    else .diagramBlocks ms

/-! ## Per-render settlement: success styling, error panel (lines 51–95) -/

/-- The content of one `.mindmap-diagram` placeholder. -/
inductive DiagramContent where
  | loadingSpinner
  | svgContent (html : String)
  | panelContent (html : String)
deriving DecidableEq, Repr

/-- Text of the error panel template (lines 87–91) before the interpolated
`error.message`. -/
def errPanelPre : String :=
  "\n                  <div class=\"p-4 bg-red-50 dark:bg-red-900/20 rounded-lg border border-red-200 dark:border-red-800\">\n                    <h3 class=\"text-red-600 dark:text-red-400 font-medium\">Rendering Error</h3>\n                    <pre class=\"mt-2 text-sm text-red-800 dark:text-red-300 overflow-auto\">"

/-- Text of the error panel template after the interpolated message. -/
def errPanelPost : String := "</pre>\n                  </div>"

/-- `promise.catch(handler)`: a resolved promise keeps its value, a
rejected one is replaced by the handler's result.  The handler is total,
so the combined computation can no longer reject — this is how the
component keeps render rejections from escaping its boundary. -/
def promiseCatch {α : Type} (p : Except String α) (handler : String → α) : α :=
  match p with
  | .ok a => a
  | .error m => handler m

/-- The promise chain `mermaid.render(...).then(result => element.innerHTML
= result.svg; ...).catch(error => element.innerHTML = panel)` as a function
of the render outcome (`.ok svg` resolved, `.error m` rejected with an
`Error` whose message is `m`): the placeholder's new content. -/
def renderTask (p : Except String String) : DiagramContent :=
  promiseCatch (p.map fun svg => DiagramContent.svgContent svg)
    (fun m => .panelContent (errPanelPre ++ m ++ errPanelPost))

/-! ## Stale transform: the effect captures `zoomStates` (line 63) -/

/-- The view state relevant to zoom consistency.  `zoom` is the current
`zoomStates`; `captured` is the `zoomStates` value closed over by the last
run of the effect (its dependency array is `[mindmaps]`, so clicks do not
re-run it); `applied` is the scale actually written to each rendered svg's
`style.transform` (`none` while the spinner is still shown). -/
structure ViewerState where
  zoom : ZoomMap
  captured : ZoomMap
  applied : Nat → Option ℚ

/-- State on mount: empty zoom map, nothing rendered. -/
def initialViewer : ViewerState :=
  { zoom := emptyZoom, captured := emptyZoom, applied := fun _ => none }

/-- Events that touch the zoom-related state. -/
inductive ViewerEvent where
  | effectRun
  | renderResolve (i : Nat)
  | zoomInClick (i : Nat)
  | zoomOutClick (i : Nat)

/-- One step of the component.  `effectRun` happens on mount and when the
`mindmaps` prop changes, closing over the then-current `zoomStates`;
`renderResolve i` is the `.then` callback writing `scale(${zoomStates[...
]?.scale || 1})` with the captured map; the click handlers update only
`zoom` — nothing re-applies the transform, because the effect does not
depend on `zoomStates`. -/
def viewerStep (s : ViewerState) : ViewerEvent → ViewerState
  | .effectRun => { s with captured := s.zoom }
  | .renderResolve i =>
      { s with applied := fun j =>
          if j = i then some (effectiveScale s.captured i) else s.applied j }
  | .zoomInClick i => { s with zoom := applyZoomIn s.zoom i }
  | .zoomOutClick i => { s with zoom := applyZoomOut s.zoom i }

/-- Run a sequence of events from the mount state. -/
def runViewer (evs : List ViewerEvent) : ViewerState :=
  evs.foldl viewerStep initialViewer

/-! ## SVG export (lines 134–149) -/

/-- JavaScript's regex class `\s`: ASCII whitespace, NBSP, the Unicode
space separators, line/paragraph separators and the BOM. -/
def isJsWhitespace (c : Char) : Bool :=
  c.toNat ∈ ([0x9, 0xA, 0xB, 0xC, 0xD, 0x20, 0xA0, 0x1680, 0x2028, 0x2029,
              0x202F, 0x205F, 0x3000, 0xFEFF] : List Nat)
  || (0x2000 ≤ c.toNat && c.toNat ≤ 0x200A)

/-- Scan for the global replace of `/\s+/`.  The flag records whether the
previous character was inside a whitespace run: the first character of a
run contributes one `'_'`, the rest of the run contributes nothing. -/
def squashWsAux : Bool → List Char → List Char
  | _, [] => []
  | inRun, c :: rest =>
    if isJsWhitespace c then
      (if inRun then [] else ['_']) ++ squashWsAux true rest
    else
      c :: squashWsAux false rest

/-- `title.replace(/\s+/g, '_')`: every maximal run of whitespace becomes
a single underscore. -/
def jsReplaceWsRuns (l : List Char) : List Char := squashWsAux false l

/-- The `link.download` value:
`` `${mindmap.title.replace(/\s+/g, '_')}_mindmap.svg` ``. -/
def svgFileName (title : String) : String :=
  String.mk (jsReplaceWsRuns title.data) ++ "_mindmap.svg"

/-- A rendered svg DOM node, identified by the XML text that
`new XMLSerializer().serializeToString(svg)` produces for it. -/
structure SvgNode where
  serialization : String
deriving DecidableEq, Repr

/-- One observable step of the download handler.  Object URLs are named by
number; the handler creates exactly one, so it is URL `0`. -/
inductive ExportStep where
  | createObjectUrl (content : String) (url : Nat)
  | appendLink (href : Nat) (downloadName : String)
  | clickLink (href : Nat) (downloadName : String)
  | removeLink (href : Nat)
  | revokeObjectUrl (url : Nat)
deriving DecidableEq, Repr

/-- The download-button handler as its trace of effects.  `svg` is what
`querySelector(`#mindmap-${index} svg`)` returned; when it is `null` the
handler does nothing.  Otherwise: serialize, make a blob URL, build an
`<a>` with `href`/`download`, append it, click it, remove it, revoke the
URL — in that order. -/
def downloadSvgTrace (title : String) (svg : Option SvgNode) : List ExportStep :=
  match svg with
  | none => []
  | some node =>
    [.createObjectUrl node.serialization 0,
     .appendLink 0 (svgFileName title),
     .clickLink 0 (svgFileName title),
     .removeLink 0,
     .revokeObjectUrl 0]

/-- The downloads triggered by a trace: the `(href, download)` pairs of
the `click()` calls. -/
def clickedDownloads (tr : List ExportStep) : List (Nat × String) :=
  tr.filterMap fun s =>
    match s with
    | .clickLink u n => some (u, n)
    | _ => none

/-- The blob content behind object URL `u`, if the trace created it. -/
def createdContent (tr : List ExportStep) (u : Nat) : Option String :=
  tr.findSome? fun s =>
    match s with
    | .createObjectUrl content u2 => if u2 = u then some content else none
    | _ => none

/-- Document/URL bookkeeping: which temporary links are attached to
`document.body` and which object URLs are still live. -/
structure DomUrlState where
  attachedLinks : List Nat
  liveUrls : List Nat
deriving DecidableEq, Repr

/-- Effect of one export step on the document state. -/
def exportStepDom (st : DomUrlState) : ExportStep → DomUrlState
  | .createObjectUrl _ u => { st with liveUrls := st.liveUrls ++ [u] }
  | .appendLink u _ => { st with attachedLinks := st.attachedLinks ++ [u] }
  | .clickLink _ _ => st
  | .removeLink u => { st with attachedLinks := st.attachedLinks.erase u }
  | .revokeObjectUrl u => { st with liveUrls := st.liveUrls.erase u }

/-- Document state after running a trace from a clean document. -/
def runExportTrace (tr : List ExportStep) : DomUrlState :=
  tr.foldl exportStepDom ⟨[], []⟩

/-! ## Helper lemmas -/

theorem squashWsAux_no_ws (l : List Char) :
    ∀ b, (squashWsAux b l).all (fun c => !isJsWhitespace c) = true := by
  induction l with
  | nil => intro b; rfl
  | cons c rest ih =>
    intro b
    by_cases hc : isJsWhitespace c = true
    · cases b <;>
        simp [squashWsAux, hc, ih, show isJsWhitespace '_' = false by decide]
    · simp only [Bool.not_eq_true] at hc
      simp [squashWsAux, hc, ih]

theorem scheduleRendersFrom_length (ms : List Mindmap) :
    ∀ k, (scheduleRendersFrom k ms).length = ms.length := by
  induction ms with
  | nil => intro k; rfl
  | cons m rest ih => intro k; simp [scheduleRendersFrom, ih]

theorem scheduleRendersFrom_getElem? (ms : List Mindmap) :
    ∀ k i, (scheduleRendersFrom k ms)[i]? =
      (ms[i]?).map fun m => (⟨mindmapId (k + i), m.code, (k + i) * 300⟩ : RenderCall) := by
  induction ms with
  | nil => intro k i; simp [scheduleRendersFrom]
  | cons m rest ih =>
    intro k i
    cases i with
    | zero => simp [scheduleRendersFrom]
    | succ i =>
      simp only [scheduleRendersFrom, List.getElem?_cons_succ, ih (k + 1) i]
      have : k + 1 + i = k + (i + 1) := by omega
      rw [this]

theorem effectiveScale_eq_of_some {z : ZoomMap} {i : Nat} {s : ℚ}
    (h : z i = some s) (hs : s ≠ 0) : effectiveScale z i = s := by
  unfold effectiveScale
  rw [h]
  simp [hs]

theorem effectiveScale_applyZoomIn_self {z : ZoomMap} (hz : ZoomInv z) (i : Nat) :
    effectiveScale (applyZoomIn z i) i = min 2 (effectiveScale z i + 1/10) := by
  have hb := effectiveScale_bounds hz i
  have hpos : (0:ℚ) < min 2 (effectiveScale z i + 1/10) :=
    lt_min (by norm_num) (by linarith [hb.1])
  exact effectiveScale_eq_of_some (by simp [applyZoomIn]) (ne_of_gt hpos)

theorem effectiveScale_applyZoomOut_self (z : ZoomMap) (i : Nat) :
    effectiveScale (applyZoomOut z i) i = max (1/2) (effectiveScale z i - 1/10) := by
  have hpos : (0:ℚ) < max (1/2) (effectiveScale z i - 1/10) :=
    lt_of_lt_of_le (by norm_num) (le_max_left _ _)
  exact effectiveScale_eq_of_some (by simp [applyZoomOut]) (ne_of_gt hpos)

theorem effectiveScale_runClicks_inc0 :
    effectiveScale (runClicks [ZoomClick.inc 0]) 0 = 11/10 := by
  simp only [runClicks, List.foldl, applyClick]
  simp [effectiveScale, applyZoomIn, emptyZoom]
  rw [show ((2:ℚ) ⊓ (1 + 10⁻¹)) = 11/10 by rw [min_def]; norm_num]
  norm_num

/-! ## Claims -/

/-- Claim C1, counterexample.  A 400 response whose body does not parse as
JSON makes `uploadPDF` reject with the `SyntaxError`'s message — the parse
failure thrown by `await response.json()` is caught by the outer `catch`
and re-thrown unchanged — not with the generic fallback message that the
claim requires in that case. -/
theorem uploadPDF_unparseable_body_cex :
    uploadPDF ⟨false, .error "Unexpected end of JSON input"⟩ =
      .error "Unexpected end of JSON input" ∧
    "Unexpected end of JSON input" ≠ uploadFallbackMsg :=
  ⟨rfl, by decide⟩

/-- Claim C1, amended.  On every non-2xx response `uploadPDF` rejects; if
the body parses as JSON and its `error` field is a non-empty string, the
rejection message is that value; if the body parses and the field is
absent or the empty string, the message is the generic fallback; if the
body does not parse as JSON, the rejection message is the parse error's
own message. -/
theorem uploadPDF_nonSuccess_rejection (resp : HttpResponse)
    (h : resp.ok = false) :
    (∃ m, uploadPDF resp = .error m) ∧
    (∀ j s, resp.body = .ok j → j.errorField = some s → s ≠ "" →
      uploadPDF resp = .error s) ∧
    (∀ j, resp.body = .ok j → (j.errorField = none ∨ j.errorField = some "") →
      uploadPDF resp = .error uploadFallbackMsg) ∧
    (∀ m, resp.body = .error m → uploadPDF resp = .error m) := by
  unfold uploadPDF
  rw [h]
  simp only [Bool.false_eq_true, if_false]
  refine ⟨?_, ?_, ?_, ?_⟩
  · cases hb : resp.body with
    | ok j =>
      cases hf : j.errorField with
      | some s =>
        by_cases hs : s = ""
        · exact ⟨uploadFallbackMsg, by simp [hf, hs]⟩
        · exact ⟨s, by simp [hf, hs]⟩
      | none => exact ⟨uploadFallbackMsg, by simp [hf]⟩
    | error m => exact ⟨m, rfl⟩
  · intro j s hb hf hs
    rw [hb]
    simp [hf, hs]
  · intro j hb hf
    rw [hb]
    rcases hf with hf | hf <;> simp [hf]
  · intro m hb
    rw [hb]

/-- Claim C1 witness: a 400 response whose body is
`{ "error": "bad file" }` rejects with message `"bad file"`. -/
theorem uploadPDF_nonSuccess_rejection_witness :
    uploadPDF ⟨false, .ok ⟨some "bad file", ""⟩⟩ = .error "bad file" :=
  (uploadPDF_nonSuccess_rejection ⟨false, .ok ⟨some "bad file", ""⟩⟩ rfl).2.1
    ⟨some "bad file", ""⟩ "bad file" rfl rfl (by decide)

/-- Claim C2, divergence witness (code bug).  The transform is written only
inside the render effect's `.then` callback, and the effect's dependency
array is `[mindmaps]`, so zoom clicks never re-apply it: after mount, a
completed render and one zoom-in click on diagram 0, the stored scale is
`11/10` and the label shows `110`, but the svg's transform is still
`scale(1)` — the claim's required consistency fails on the code. -/
theorem zoom_transform_stale_after_click :
    effectiveScale (runViewer
      [.effectRun, .renderResolve 0, .zoomInClick 0]).zoom 0 = 11/10 ∧
    displayedPct (runViewer
      [.effectRun, .renderResolve 0, .zoomInClick 0]).zoom 0 = 110 ∧
    (runViewer [.effectRun, .renderResolve 0, .zoomInClick 0]).applied 0 =
      some 1 ∧
    (runViewer [.effectRun, .renderResolve 0, .zoomInClick 0]).applied 0 ≠
      some (effectiveScale (runViewer
        [.effectRun, .renderResolve 0, .zoomInClick 0]).zoom 0) := by
  have hzoom : (runViewer [.effectRun, .renderResolve 0, .zoomInClick 0]).zoom
      = applyZoomIn emptyZoom 0 := by
    simp [runViewer, viewerStep, initialViewer]
  have heff : effectiveScale (applyZoomIn emptyZoom 0) 0 = 11/10 := by
    simp [effectiveScale, applyZoomIn, emptyZoom]
    rw [show ((2:ℚ) ⊓ (1 + 10⁻¹)) = 11/10 by rw [min_def]; norm_num]
    norm_num
  have happ : (runViewer [.effectRun, .renderResolve 0, .zoomInClick 0]).applied 0
      = some 1 := by
    simp [runViewer, viewerStep, initialViewer, effectiveScale, emptyZoom]
  refine ⟨by rw [hzoom, heff], ?_, happ, ?_⟩
  · rw [hzoom]
    simp [displayedPct, jsRound, effectiveScale, applyZoomIn, emptyZoom]
    rw [show ((2:ℚ) ⊓ (1 + 10⁻¹)) = 11/10 by rw [min_def]; norm_num]
    norm_num
  · rw [hzoom, heff, happ]
    intro hcontra
    simp at hcontra
    norm_num at hcontra

/-- Claim C3.  From the initial state, after any sequence of zoom clicks
the effective scale of every diagram lies in `[1/2, 2]`; a zoom-in click
stores exactly `min 2 (scale + 1/10)` and a zoom-out click exactly
`max (1/2) (scale - 1/10)`, so each click changes the scale by exactly
`1/10` whenever the clamp does not bind. -/
theorem zoom_scale_clamped_step (cs : List ZoomClick) (i : Nat) :
    (1/2 ≤ effectiveScale (runClicks cs) i ∧
      effectiveScale (runClicks cs) i ≤ 2) ∧
    effectiveScale (applyZoomIn (runClicks cs) i) i =
      min 2 (effectiveScale (runClicks cs) i + 1/10) ∧
    effectiveScale (applyZoomOut (runClicks cs) i) i =
      max (1/2) (effectiveScale (runClicks cs) i - 1/10) ∧
    (effectiveScale (runClicks cs) i + 1/10 ≤ 2 →
      effectiveScale (applyZoomIn (runClicks cs) i) i =
        effectiveScale (runClicks cs) i + 1/10) ∧
    (1/2 ≤ effectiveScale (runClicks cs) i - 1/10 →
      effectiveScale (applyZoomOut (runClicks cs) i) i =
        effectiveScale (runClicks cs) i - 1/10) := by
  have hinv := zoomInv_runClicks cs
  have hin := effectiveScale_applyZoomIn_self hinv i
  have hout := effectiveScale_applyZoomOut_self (runClicks cs) i
  refine ⟨effectiveScale_bounds hinv i, hin, hout, ?_, ?_⟩
  · intro hle
    rw [hin, min_eq_right hle]
  · intro hge
    rw [hout, max_eq_right hge]

/-- Claim C3 witness: after one zoom-in click on diagram 0 the scale is
within bounds, and a second zoom-in click adds exactly `1/10`. -/
theorem zoom_scale_clamped_step_witness :
    (1/2 ≤ effectiveScale (runClicks [ZoomClick.inc 0]) 0 ∧
      effectiveScale (runClicks [ZoomClick.inc 0]) 0 ≤ 2) ∧
    effectiveScale (applyZoomIn (runClicks [ZoomClick.inc 0]) 0) 0 =
      effectiveScale (runClicks [ZoomClick.inc 0]) 0 + 1/10 := by
  have h := zoom_scale_clamped_step [ZoomClick.inc 0] 0
  refine ⟨h.1, h.2.2.2.1 ?_⟩
  rw [effectiveScale_runClicks_inc0]
  norm_num

/-- Claim C4.  For a successfully rendered diagram, the export handler
triggers exactly one download: its content is the XML serialization of the
rendered svg node and its filename is the title with every whitespace run
replaced by `_`, followed by `_mindmap.svg`; no whitespace survives the
replacement. -/
theorem export_payload_and_filename (title : String) (node : SvgNode) :
    clickedDownloads (downloadSvgTrace title (some node)) =
      [(0, svgFileName title)] ∧
    createdContent (downloadSvgTrace title (some node)) 0 =
      some node.serialization ∧
    svgFileName title = String.mk (jsReplaceWsRuns title.data) ++ "_mindmap.svg" ∧
    (jsReplaceWsRuns title.data).all (fun c => !isJsWhitespace c) = true :=
  ⟨rfl, rfl, rfl, squashWsAux_no_ws title.data false⟩

/-- Claim C5.  A render promise rejected with message `m` settles the
placeholder to the error panel, whose markup contains `m` verbatim between
the fixed template pieces; `renderTask` is a total function into
`DiagramContent` — the `catch` handler absorbs every rejection, so nothing
escapes the component boundary. -/
theorem render_rejection_error_panel (m : String) :
    renderTask (.error m) =
      .panelContent (errPanelPre ++ m ++ errPanelPost) ∧
    (∃ l r, errPanelPre ++ m ++ errPanelPost = l ++ m ++ r) ∧
    (∀ svg, renderTask (.ok svg) = .svgContent svg) :=
  ⟨rfl, ⟨errPanelPre, errPanelPost, rfl⟩, fun _ => rfl⟩

/-- Claim C6.  For a non-empty entry list the effect issues exactly one
render call per entry: call `i` carries id `mindmap-i`, the `i`-th entry's
source text, and delay `i * 300` ms — strictly increasing in and
proportional to the index. -/
theorem staggered_render_calls (ms : List Mindmap) (h : ms ≠ []) :
    issuedRenderCalls (viewerEffectCalls (some ms)) = scheduleRenders ms ∧
    (scheduleRenders ms).length = ms.length ∧
    (∀ i m, ms[i]? = some m →
      (scheduleRenders ms)[i]? = some (⟨mindmapId i, m.code, i * 300⟩ : RenderCall)) ∧
    (∀ i j ci cj, (scheduleRenders ms)[i]? = some ci →
      (scheduleRenders ms)[j]? = some cj → i < j →
      ci.delay = i * 300 ∧ cj.delay = j * 300 ∧ ci.delay < cj.delay) := by
  have hlen : 0 < ms.length := List.length_pos.mpr h
  refine ⟨?_, scheduleRendersFrom_length ms 0, ?_, ?_⟩
  · simp [viewerEffectCalls, issuedRenderCalls, hlen]
  · intro i m hm
    rw [scheduleRenders, scheduleRendersFrom_getElem? ms 0 i, hm]
    simp
  · intro i j ci cj hci hcj hij
    rw [scheduleRenders, scheduleRendersFrom_getElem? ms 0 i] at hci
    rw [scheduleRenders, scheduleRendersFrom_getElem? ms 0 j] at hcj
    cases hmi : ms[i]? with
    | none => rw [hmi] at hci; simp at hci
    | some m =>
      cases hmj : ms[j]? with
      | none => rw [hmj] at hcj; simp at hcj
      | some m2 =>
        rw [hmi] at hci
        rw [hmj] at hcj
        simp at hci hcj
        have hdi : ci.delay = i * 300 := by rw [← hci]
        have hdj : cj.delay = j * 300 := by rw [← hcj]
        refine ⟨hdi, hdj, ?_⟩
        rw [hdi, hdj]
        omega

/-- Claim C6 witness: with two entries, two calls are scheduled; the
second carries the second entry's source and delay 300 > 0. -/
theorem staggered_render_calls_witness :
    (scheduleRenders [⟨"A", "codeA"⟩, ⟨"B", "codeB"⟩]).length = 2 ∧
    (scheduleRenders [⟨"A", "codeA"⟩, ⟨"B", "codeB"⟩])[1]? =
      some ⟨mindmapId 1, "codeB", 300⟩ := by
  have h := staggered_render_calls [⟨"A", "codeA"⟩, ⟨"B", "codeB"⟩] (by simp)
  exact ⟨h.2.1, h.2.2.1 1 ⟨"B", "codeB"⟩ rfl⟩

/-- Claim C7.  An absent or empty entry list renders the single neutral
placeholder `No mindmaps available`, and the effect issues no render call
(for an absent prop the effect body throws on `mindmaps.length` before
reaching the loop; for an empty list the guard is false). -/
theorem empty_input_placeholder (o : Option (List Mindmap))
    (h : o = none ∨ o = some []) :
    renderView o = .emptyPlaceholder "No mindmaps available" ∧
    issuedRenderCalls (viewerEffectCalls o) = [] := by
  rcases h with h | h <;> subst h <;> exact ⟨rfl, rfl⟩

/-- Claim C7 witness: the absent-prop case. -/
theorem empty_input_placeholder_witness :
    renderView none = .emptyPlaceholder "No mindmaps available" ∧
    issuedRenderCalls (viewerEffectCalls none) = [] :=
  empty_input_placeholder none (Or.inl rfl)

/-- Claim C8.  After the export handler finishes — whether or not the svg
node was found — no temporary link remains attached to the document and no
object URL remains live: the one appended link is removed and the one
created URL is revoked. -/
theorem export_cleanup (title : String) (svg : Option SvgNode) :
    (runExportTrace (downloadSvgTrace title svg)).attachedLinks = [] ∧
    (runExportTrace (downloadSvgTrace title svg)).liveUrls = [] := by
  cases svg <;> exact ⟨rfl, rfl⟩

/-- Claim C9.  A diagram with no entry in the zoom map has effective scale
1: the label reads 100%, and a render completing while the captured map
has no entry for it applies transform `scale(1)`. -/
theorem default_scale_one (z : ZoomMap) (i : Nat) (h : z i = none)
    (st : ViewerState) (hc : st.captured i = none) :
    effectiveScale z i = 1 ∧ displayedPct z i = 100 ∧
    (viewerStep st (.renderResolve i)).applied i = some 1 := by
  have heff : effectiveScale z i = 1 := by
    unfold effectiveScale
    rw [h]
  have heffc : effectiveScale st.captured i = 1 := by
    unfold effectiveScale
    rw [hc]
  refine ⟨heff, ?_, ?_⟩
  · unfold displayedPct jsRound
    rw [heff]
    norm_num
  · simp [viewerStep, heffc]

/-- Claim C9 witness: the initial state, diagram 0. -/
theorem default_scale_one_witness :
    effectiveScale emptyZoom 0 = 1 ∧ displayedPct emptyZoom 0 = 100 ∧
    (viewerStep initialViewer (.renderResolve 0)).applied 0 = some 1 :=
  default_scale_one emptyZoom 0 rfl initialViewer rfl

/-- Claim C10.  A zoom click on diagram `i` leaves the stored entry of
every other diagram `j ≠ i` in the zoom map unchanged. -/
theorem zoom_click_frame (z : ZoomMap) (i j : Nat) (h : j ≠ i) :
    applyZoomIn z i j = z j ∧ applyZoomOut z i j = z j := by
  unfold applyZoomIn applyZoomOut
  simp [h]

/-- Claim C10 witness: a click on diagram 0 leaves diagram 1's entry
unchanged. -/
theorem zoom_click_frame_witness :
    applyZoomIn emptyZoom 0 1 = emptyZoom 1 ∧
    applyZoomOut emptyZoom 0 1 = emptyZoom 1 :=
  zoom_click_frame emptyZoom 0 1 (by decide)

end Omex
